import Mathlib

/-!
Verification development for the Black Sword Hack initiative resolver
(modules/combat.js, class BSHCombat) and its combat-tracker display hook.

The JavaScript source is embedded shallowly:

* `_rollCombatantInitiatives(ids)` becomes `rollCombatantInitiatives`,
  a pure function of an environment (the combatant store and the
  attribute-derivation function, both consumed collaborators), a stream
  of d20 results (the randomness engine: the n-th evaluation of
  `new Roll("1d20")` returns `draws n`), and the list of ids.
* The batched `updateEmbeddedDocuments` call is modelled by `batchCalls`,
  the list of batch mutations performed (empty or a singleton).
* The `renderCombatTracker` per-row text replacement becomes
  `initiativeDisplay`.

JavaScript dynamic values are modelled explicitly: a wisdom field that may
fail the `typeof x === "number"` test is a `JSVal`; optional chaining and
`??` fallbacks become `Option`. The imported `calculateAttributeValues`
function is kept abstract (a field of the environment), as the claims treat
attribute derivation as an external pure function.
-/

namespace BSH

/-- Value of the wisdom field on a derived attribute record, as seen by the
JavaScript check `typeof attributes.wisdom === "number"`: either a number or
anything else (undefined, string, ...). -/
inductive JSVal where
  | num (x : Int)
  | nonNum
deriving DecidableEq, Repr

/-- Derived attribute record (result of `calculateAttributeValues`, or the
cached `system.calculated`); only `wisdom` is read by the initiative code. -/
structure AttrRec where
  wisdom : JSVal
deriving DecidableEq, Repr

/-- Raw stored attribute block of a non-player actor (`system.attributes`);
`wisdom` may be absent. -/
structure NPCAttrs where
  wisdom : Option Int
deriving DecidableEq, Repr

/-- The `actor.system` object: `calculated` may be absent (falsy), and the
raw `attributes` block may be absent. -/
structure ActorSystem where
  calculated : Option AttrRec
  attributes : Option NPCAttrs
deriving DecidableEq, Repr

/-- A Foundry actor: its `type` string (the code tests `=== "character"`)
and its `system` data. -/
structure Actor where
  type : String
  system : ActorSystem
deriving DecidableEq, Repr

/-- A combatant record: its id, its controlling actor (possibly
unresolvable), and the stored initiative / critInit flag from any previous
roll (read only by the tracker display, never by the roll itself). -/
structure Combatant where
  id : String
  actor : Option Actor
  initiative : Option Int
  critInit : Option String
deriving DecidableEq, Repr

/-- One entry of the batched `updateEmbeddedDocuments("Combatant", ...)`
call: `{_id, initiative, "flags.bsh.critInit": critFlag}`. -/
structure CombatantUpdate where
  _id : String
  initiative : Int
  critInit : Option String
deriving DecidableEq, Repr

/-- The environment of a resolution call: `this.combatants.get` and the
imported `calculateAttributeValues` (applied to `BSHConfiguration`). -/
structure CombatEnv where
  combatants : String → Option Combatant
  calculateAttributeValues : ActorSystem → AttrRec

/-- Step 1 of the loop body (combat.js lines 41-53): determine the WIS value
for an actor.  For a character, use `system.calculated` when present,
otherwise derive it, then fall back to 10 unless the wisdom field is a
number; otherwise read `system.attributes?.wisdom ?? 10`. -/
def wisFor (env : CombatEnv) (actor : Actor) : Int :=
  if actor.type = "character" then
    let attributes :=
      match actor.system.calculated with
      | some a => a
      | none => env.calculateAttributeValues actor.system
    match attributes.wisdom with
    | JSVal.num x => x
    | JSVal.nonNum => 10
  else
    match actor.system.attributes with
    | some a =>
      match a.wisdom with
      | some w => w
      | none => 10
    | none => 10

/-- The bucket chosen for a character roll (combat.js lines 68-81). -/
def pcBucket (wisValue raw : Int) : Int :=
  if raw = 1 then 3
  else if raw = 20 then 1
  else if raw < wisValue then 3
  else 1

/-- The critInit flag chosen for a character roll (combat.js lines 68-81). -/
def pcFlag (raw : Int) : Option String :=
  if raw = 1 then some "critSuccess"
  else if raw = 20 then some "critFailure"
  else none

/-- Numeric initiative of a character: `(bucket * 1000) - raw`
(combat.js line 84). -/
def pcInitiative (wisValue raw : Int) : Int :=
  pcBucket wisValue raw * 1000 - raw

/-- Numeric initiative of a monster / NPC: `(2 * 1000) - 0`
(combat.js line 99). -/
def npcInitiative : Int := 2 * 1000 - 0

/-- One iteration of the `for (const cid of ids)` loop (combat.js lines
33-108).  `n` counts the die rolls performed so far, so the roll for this
combatant (if any) reads `draws n`.  Returns the queued update (if the
combatant resolved) and the new roll count. -/
def processCid (env : CombatEnv) (draws : Nat → Int) (cid : String) (n : Nat) :
    Option CombatantUpdate × Nat :=
  match env.combatants cid with
  | none => (none, n)
  | some combatant =>
    match combatant.actor with
    | none => (none, n)
    | some actor =>
      let wisValue := wisFor env actor
      if actor.type = "character" then
        let raw := draws n
        (some ⟨combatant.id, pcInitiative wisValue raw, pcFlag raw⟩, n + 1)
      else
        (some ⟨combatant.id, npcInitiative, none⟩, n)

/-- The loop over ids, accumulating the `updates` array in order. -/
def rollLoop (env : CombatEnv) (draws : Nat → Int) :
    List String → Nat → List CombatantUpdate
  | [], _ => []
  | cid :: rest, n =>
    match processCid env draws cid n with
    | (some u, n') => u :: rollLoop env draws rest n'
    | (none, n') => rollLoop env draws rest n'

/-- `_rollCombatantInitiatives(ids)`: the full list of queued updates. -/
def rollCombatantInitiatives (env : CombatEnv) (draws : Nat → Int)
    (ids : List String) : List CombatantUpdate :=
  rollLoop env draws ids 0

/-- The batched store mutations performed by one call (combat.js lines
111-113): one `updateEmbeddedDocuments` call holding all updates when the
list is non-empty, no call at all otherwise. -/
def batchCalls (env : CombatEnv) (draws : Nat → Int)
    (ids : List String) : List (List CombatantUpdate) :=
  let updates := rollCombatantInitiatives env draws ids
  if updates.isEmpty then [] else [updates]

/-- An id is resolvable when the store yields a combatant that has an
actor. -/
def resolvable (env : CombatEnv) (cid : String) : Bool :=
  match env.combatants cid with
  | none => false
  | some c => c.actor.isSome

/-- An id consumes a die roll exactly when it resolves to a character. -/
def consumesRoll (env : CombatEnv) (cid : String) : Bool :=
  match env.combatants cid with
  | none => false
  | some c =>
    match c.actor with
    | none => false
    | some a => a.type = "character"

/-- The entry a single combatant contributes, given a fixed assignment of
d20 values to combatant ids (the per-combatant view of the loop body). -/
def entryFor (env : CombatEnv) (assign : String → Int) (cid : String) :
    Option CombatantUpdate :=
  match env.combatants cid with
  | none => none
  | some combatant =>
    match combatant.actor with
    | none => none
    | some actor =>
      let wisValue := wisFor env actor
      if actor.type = "character" then
        some ⟨combatant.id, pcInitiative wisValue (assign cid),
              pcFlag (assign cid)⟩
      else
        some ⟨combatant.id, npcInitiative, none⟩

/-- The draw stream `draws`, consumed from index `n` along the id list,
realises the fixed per-combatant assignment `assign`: each id that consumes
a roll reads exactly its assigned value. -/
def streamMatches (env : CombatEnv) (assign : String → Int)
    (draws : Nat → Int) : List String → Nat → Bool
  | [], _ => true
  | cid :: rest, n =>
    if consumesRoll env cid then
      decide (draws n = assign cid) && streamMatches env assign draws rest (n + 1)
    else
      streamMatches env assign draws rest n

/-- Erase the stored initiative and critInit of a combatant (the fields a
previous roll may have written). -/
def clearPrior (c : Combatant) : Combatant :=
  ⟨c.id, c.actor, none, none⟩

/-- The same environment with every combatant's previously stored
initiative and critInit erased. -/
def clearPriorEnv (env : CombatEnv) : CombatEnv :=
  ⟨fun cid => (env.combatants cid).map clearPrior,
   env.calculateAttributeValues⟩

/-- Replace a single id's combatant record in the store. -/
def envWith (env : CombatEnv) (cid : String) (c : Combatant) : CombatEnv :=
  ⟨fun x => if x = cid then some c else env.combatants x,
   env.calculateAttributeValues⟩

/-- The text the `renderCombatTracker` hook writes into the
`combatant-initiative` span of a row (combat.js lines 138-147). -/
def initiativeDisplay (combatant : Combatant) : String :=
  match combatant.actor with
  | some actor =>
    if actor.type = "character" then
      let initValue : Int :=
        match combatant.initiative with
        | some v => v
        | none => 0
      if initValue > 2000 then "Success" else "Failure"
    else ""
  | none => ""

/-! Concrete fixtures used by witnesses. -/

/-- A character actor whose cached derived wisdom is `w`. -/
def pcActor (w : Int) : Actor := ⟨"character", ⟨some ⟨JSVal.num w⟩, none⟩⟩

/-- A non-player actor with stored raw wisdom `w` (possibly absent). -/
def npcActor (w : Option Int) : Actor := ⟨"npc", ⟨none, some ⟨w⟩⟩⟩

/-- A character combatant with cached wisdom `w` and no prior roll data. -/
def pcComb (cid : String) (w : Int) : Combatant :=
  ⟨cid, some (pcActor w), none, none⟩

/-- A non-player combatant with stored wisdom 12 and no prior roll data. -/
def npcComb (cid : String) : Combatant :=
  ⟨cid, some (npcActor (some 12)), none, none⟩

/-- A derivation function returning a non-numeric wisdom. -/
def defaultCalc : ActorSystem → AttrRec := fun _ => ⟨JSVal.nonNum⟩

/-- Fixture store: a character "a" (wis 10), an NPC "b", an actorless
combatant "w", nothing else. -/
def envAB : CombatEnv :=
  ⟨fun cid =>
    if cid = "a" then some (pcComb "a" 10)
    else if cid = "b" then some (npcComb "b")
    else if cid = "w" then some ⟨"w", none, none, none⟩
    else none,
   defaultCalc⟩

/-- A constant draw stream. -/
def drawsConst (k : Int) : Nat → Int := fun _ => k

/-- A fixed assignment of d20 values used by the C8 witness. -/
def assignAB : String → Int := fun cid => if cid = "a" then 5 else 0

/-- A resolvable character id consumes one roll and contributes the entry
determined by its own assigned draw. -/
lemma processCid_consumes (env : CombatEnv) (assign : String → Int)
    (draws : Nat → Int) (cid : String) (n : Nat)
    (hc : consumesRoll env cid = true) (hd : draws n = assign cid) :
    processCid env draws cid n = (entryFor env assign cid, n + 1) := by
  rcases h1 : env.combatants cid with _ | c
  · simp [consumesRoll, h1] at hc
  · rcases h2 : c.actor with _ | a
    · simp [consumesRoll, h1, h2] at hc
    · simp only [consumesRoll, h1, h2, decide_eq_true_eq] at hc
      simp [processCid, entryFor, h1, h2, hc, hd]

/-- An id that consumes no roll leaves the roll counter unchanged and
contributes the assignment-independent entry. -/
lemma processCid_no_roll (env : CombatEnv) (assign : String → Int)
    (draws : Nat → Int) (cid : String) (n : Nat)
    (hc : consumesRoll env cid = false) :
    processCid env draws cid n = (entryFor env assign cid, n) := by
  rcases h1 : env.combatants cid with _ | c
  · simp [processCid, entryFor, h1]
  · rcases h2 : c.actor with _ | a
    · simp [processCid, entryFor, h1, h2]
    · simp only [consumesRoll, h1, h2, decide_eq_false_iff_not] at hc
      simp [processCid, entryFor, h1, h2, hc]

/-- When the consumed stream realises the fixed assignment, the loop output
is the pointwise per-combatant entry list. -/
lemma rollLoop_eq_filterMap (env : CombatEnv) (assign : String → Int)
    (draws : Nat → Int) :
    ∀ (ids : List String) (n : Nat),
      streamMatches env assign draws ids n = true →
      rollLoop env draws ids n = ids.filterMap (entryFor env assign)
  | [], _, _ => rfl
  | cid :: rest, n, h => by
    by_cases hc : consumesRoll env cid = true
    · rw [streamMatches, if_pos hc, Bool.and_eq_true, decide_eq_true_eq] at h
      rw [rollLoop, processCid_consumes env assign draws cid n hc h.1,
          List.filterMap_cons]
      rcases he : entryFor env assign cid with _ | u
      · show rollLoop env draws rest (n + 1) =
          List.filterMap (entryFor env assign) rest
        exact rollLoop_eq_filterMap env assign draws rest (n + 1) h.2
      · show u :: rollLoop env draws rest (n + 1) =
          u :: List.filterMap (entryFor env assign) rest
        rw [rollLoop_eq_filterMap env assign draws rest (n + 1) h.2]
    · rw [Bool.not_eq_true] at hc
      rw [streamMatches, if_neg (by simp [hc])] at h
      rw [rollLoop, processCid_no_roll env assign draws cid n hc,
          List.filterMap_cons]
      rcases he : entryFor env assign cid with _ | u
      · show rollLoop env draws rest n =
          List.filterMap (entryFor env assign) rest
        exact rollLoop_eq_filterMap env assign draws rest n h
      · show u :: rollLoop env draws rest n =
          u :: List.filterMap (entryFor env assign) rest
        rw [rollLoop_eq_filterMap env assign draws rest n h]

end BSH

namespace BSH

/-- The loop emits exactly one update per resolvable occurrence. -/
lemma rollLoop_length (env : CombatEnv) (draws : Nat → Int) :
    ∀ (ids : List String) (n : Nat),
      (rollLoop env draws ids n).length = ids.countP (resolvable env)
  | [], _ => rfl
  | cid :: rest, n => by
    rcases h1 : env.combatants cid with _ | c
    · rw [rollLoop]
      show (match processCid env draws cid n with
        | (some u, n') => u :: rollLoop env draws rest n'
        | (none, n') => rollLoop env draws rest n').length = _
      simp only [processCid, h1]
      rw [List.countP_cons]
      simp [resolvable, h1, rollLoop_length env draws rest n]
    · rcases h2 : c.actor with _ | a
      · rw [rollLoop]
        show (match processCid env draws cid n with
          | (some u, n') => u :: rollLoop env draws rest n'
          | (none, n') => rollLoop env draws rest n').length = _
        simp only [processCid, h1, h2]
        rw [List.countP_cons]
        simp [resolvable, h1, h2, rollLoop_length env draws rest n]
      · rw [rollLoop]
        show (match processCid env draws cid n with
          | (some u, n') => u :: rollLoop env draws rest n'
          | (none, n') => rollLoop env draws rest n').length = _
        simp only [processCid, h1, h2]
        rw [List.countP_cons]
        by_cases ht : a.type = "character"
        · simp [resolvable, h1, h2, ht, rollLoop_length env draws rest]
        · simp [resolvable, h1, h2, ht, rollLoop_length env draws rest]

end BSH

namespace BSH

/-- Erasing previously stored initiative / critInit values changes nothing
in one loop iteration: the roll never reads them. -/
lemma processCid_clearPriorEnv (env : CombatEnv) (draws : Nat → Int)
    (cid : String) (n : Nat) :
    processCid (clearPriorEnv env) draws cid n = processCid env draws cid n := by
  rcases h1 : env.combatants cid with _ | c
  · simp [processCid, clearPriorEnv, h1]
  · rcases h2 : c.actor with _ | a
    · simp [processCid, clearPriorEnv, clearPrior, h1, h2]
    · simp [processCid, clearPriorEnv, clearPrior, h1, h2, wisFor]

/-- Erasing previously stored initiative / critInit values changes nothing
in the whole loop. -/
lemma rollLoop_clearPriorEnv (env : CombatEnv) (draws : Nat → Int) :
    ∀ (ids : List String) (n : Nat),
      rollLoop (clearPriorEnv env) draws ids n = rollLoop env draws ids n
  | [], _ => rfl
  | cid :: rest, n => by
    rw [rollLoop, rollLoop, processCid_clearPriorEnv env draws cid n]
    rcases processCid env draws cid n with ⟨_ | u, n'⟩
    · show rollLoop (clearPriorEnv env) draws rest n' = rollLoop env draws rest n'
      exact rollLoop_clearPriorEnv env draws rest n'
    · show u :: rollLoop (clearPriorEnv env) draws rest n' =
        u :: rollLoop env draws rest n'
      rw [rollLoop_clearPriorEnv env draws rest n']

/-- C1: for every PlayerCharacter combatant processed by the resolver, with
w the resolved willpower (WIS) attribute and raw the single d20 value drawn
for it: raw = 1 yields bucket 3 and flag critSuccess, raw = 20 yields
bucket 1 and flag critFailure, otherwise raw < w yields bucket 3 with no
flag and raw ≥ w yields bucket 1 with no flag; the emitted rank is
bucket * 1000 - raw in every case, and exactly one die is consumed. -/
theorem C1_pc_classification (env : CombatEnv) (draws : Nat → Int)
    (cid : String) (n nn : Nat) (c : Combatant) (a : Actor)
    (u : CombatantUpdate)
    (hc : env.combatants cid = some c) (ha : c.actor = some a)
    (ht : a.type = "character")
    (hp : processCid env draws cid n = (some u, nn)) :
    nn = n + 1 ∧ u._id = c.id ∧
    (draws n = 1 →
      u.initiative = 3 * 1000 - draws n ∧ u.critInit = some "critSuccess") ∧
    (draws n = 20 →
      u.initiative = 1 * 1000 - draws n ∧ u.critInit = some "critFailure") ∧
    (draws n ≠ 1 → draws n ≠ 20 → draws n < wisFor env a →
      u.initiative = 3 * 1000 - draws n ∧ u.critInit = none) ∧
    (draws n ≠ 1 → draws n ≠ 20 → ¬ draws n < wisFor env a →
      u.initiative = 1 * 1000 - draws n ∧ u.critInit = none) := by
  simp only [processCid, hc, ha, ht, if_pos, Prod.mk.injEq,
    Option.some.injEq] at hp
  obtain ⟨hu, hn⟩ := hp
  subst hn
  subst hu
  refine ⟨rfl, rfl, ?_, ?_, ?_, ?_⟩
  · intro h1; simp [pcInitiative, pcBucket, pcFlag, h1]
  · intro h1; simp [pcInitiative, pcBucket, pcFlag, h1]
  · intro h1 h2 h3; simp [pcInitiative, pcBucket, pcFlag, h1, h2, h3]
  · intro h1 h2 h3; simp [pcInitiative, pcBucket, pcFlag, h1, h2, h3]

/-- Witness for C1: a character with WIS 10 drawing raw 7 gets rank 2993
and no critical flag. -/
theorem C1_pc_classification_witness :
    (7 : Int) ≠ 1 ∧ (7 : Int) ≠ 20 ∧ (7 : Int) < wisFor envAB (pcActor 10) ∧
    processCid envAB (drawsConst 7) "a" 0 =
      (some ⟨"a", 2993, none⟩, 1) := by
  have h := C1_pc_classification envAB (drawsConst 7) "a" 0 1
    (pcComb "a" 10) (pcActor 10) ⟨"a", 2993, none⟩ rfl rfl rfl (by decide)
  exact ⟨by decide, by decide, by decide, by decide⟩

end BSH

namespace BSH

/-- C2 (amended): with a d20 draw in [1,20], every emitted rank lies in one
of three disjoint sets: [2981,2999] for PlayerCharacters in the fast
bucket, exactly 2000 for non-player entities, and [980,998] for
PlayerCharacters in the slow bucket; a PlayerCharacter whose raw roll is
20 receives rank exactly 980. -/
theorem C2_rank_intervals (env : CombatEnv) (draws : Nat → Int)
    (cid : String) (n nn : Nat) (c : Combatant) (a : Actor)
    (u : CombatantUpdate)
    (hc : env.combatants cid = some c) (ha : c.actor = some a)
    (hlo : 1 ≤ draws n) (hhi : draws n ≤ 20)
    (hp : processCid env draws cid n = (some u, nn)) :
    (a.type = "character" →
      (2981 ≤ u.initiative ∧ u.initiative ≤ 2999) ∨
      (980 ≤ u.initiative ∧ u.initiative ≤ 998)) ∧
    (a.type ≠ "character" → u.initiative = 2000) ∧
    (a.type = "character" → draws n = 20 → u.initiative = 980) := by
  by_cases ht : a.type = "character"
  · simp only [processCid, hc, ha, ht, if_pos, Prod.mk.injEq,
      Option.some.injEq] at hp
    obtain ⟨hu, hn⟩ := hp
    subst hu
    refine ⟨fun _ => ?_, fun h => absurd ht h, fun _ h20 => ?_⟩
    · simp only [pcInitiative, pcBucket]
      split_ifs <;> simp <;> omega
    · simp [pcInitiative, pcBucket, h20]
  · have heq : processCid env draws cid n = (some ⟨c.id, npcInitiative, none⟩, n) := by
      simp [processCid, hc, ha, ht]
    rw [heq] at hp
    simp only [Prod.mk.injEq, Option.some.injEq] at hp
    obtain ⟨hu, hn⟩ := hp
    subst hu
    exact ⟨fun h => absurd h ht, fun _ => rfl, fun h => absurd h ht⟩

/-- Witness for C2 (amended): a character with WIS 10 drawing 5 lands at
rank 2995, inside the fast interval. -/
theorem C2_rank_intervals_witness :
    processCid envAB (drawsConst 5) "a" 0 = (some ⟨"a", 2995, none⟩, 1) ∧
    ((2981 ≤ (2995 : Int) ∧ (2995 : Int) ≤ 2999) ∨
      (980 ≤ (2995 : Int) ∧ (2995 : Int) ≤ 998)) := by
  have h := C2_rank_intervals envAB (drawsConst 5) "a" 0 1
    (pcComb "a" 10) (pcActor 10) ⟨"a", 2995, none⟩ rfl rfl
    (by decide) (by decide) (by decide)
  exact ⟨by decide, h.1 rfl⟩

/-- Counterexample to C2 as stated: a character with WIS 10 drawing a raw
20 is emitted with rank 980, which does not lie in [981,999] (nor in
[2981,2999], nor is it 2000). -/
theorem C2_counterexample :
    rollCombatantInitiatives envAB (drawsConst 20) ["a"] =
      [⟨"a", 980, some "critFailure"⟩] ∧
    ¬ (981 ≤ (980 : Int) ∧ (980 : Int) ≤ 999) ∧
    ¬ (2981 ≤ (980 : Int) ∧ (980 : Int) ≤ 2999) ∧
    (980 : Int) ≠ 2000 := by
  refine ⟨by decide, by decide, by decide, by decide⟩

/-- C3: a combatant whose actor is not of type character is emitted with
rank exactly 2000 and no critical flag, consumes no die roll (the roll
counter is unchanged), and the output is the same whatever its stored
attribute block (the wisdom value read with fallback 10 has no effect). -/
theorem C3_npc_fixed (env : CombatEnv) (draws : Nat → Int)
    (cid : String) (n : Nat) (c : Combatant) (a : Actor)
    (sys2 : ActorSystem)
    (hc : env.combatants cid = some c) (ha : c.actor = some a)
    (ht : a.type ≠ "character") :
    processCid env draws cid n = (some ⟨c.id, 2000, none⟩, n) ∧
    processCid (envWith env cid ⟨c.id, some ⟨a.type, sys2⟩, c.initiative,
        c.critInit⟩) draws cid n = (some ⟨c.id, 2000, none⟩, n) := by
  constructor
  · simp [processCid, hc, ha, ht, npcInitiative]
  · simp [processCid, envWith, ht, npcInitiative]

/-- Witness for C3: the NPC "b" is emitted with rank 2000, no flag, no die
consumed, for any attribute block. -/
theorem C3_npc_fixed_witness :
    processCid envAB (drawsConst 5) "b" 0 = (some ⟨"b", 2000, none⟩, 0) ∧
    processCid (envWith envAB "b" ⟨"b", some ⟨"npc", ⟨none, none⟩⟩,
        none, none⟩) (drawsConst 5) "b" 0 = (some ⟨"b", 2000, none⟩, 0) :=
  C3_npc_fixed envAB (drawsConst 5) "b" 0 (npcComb "b")
    (npcActor (some 12)) ⟨none, none⟩ rfl rfl (by decide)

/-- C4: sorting by rank descending places fast-bucket characters before
NPCs before slow-bucket characters; within one bucket the lower raw die
value gives the strictly higher rank, the raw die value is recoverable as
bucket * 1000 - rank, and distinct raw values in a bucket give distinct
ranks. -/
theorem C4_sort_order (w1 w2 r1 r2 : Int)
    (h1 : 1 ≤ r1) (h1' : r1 ≤ 20) (h2 : 1 ≤ r2) (h2' : r2 ≤ 20) :
    (pcBucket w1 r1 = 3 → pcInitiative w1 r1 > npcInitiative) ∧
    (pcBucket w1 r1 = 1 → pcInitiative w1 r1 < npcInitiative) ∧
    (pcBucket w1 r1 = pcBucket w2 r2 → r1 < r2 →
      pcInitiative w1 r1 > pcInitiative w2 r2) ∧
    pcBucket w1 r1 * 1000 - pcInitiative w1 r1 = r1 ∧
    (pcBucket w1 r1 = pcBucket w2 r2 → r1 ≠ r2 →
      pcInitiative w1 r1 ≠ pcInitiative w2 r2) := by
  unfold pcInitiative npcInitiative pcBucket
  split_ifs <;> refine ⟨?_, ?_, ?_, ?_, ?_⟩ <;> omega

/-- Witness for C4: draws 5 and 15 against WIS 10 give ranks 2995 and 985;
the sorted order is fast character, NPC, slow character. -/
theorem C4_sort_order_witness :
    (pcBucket 10 5 = 3 → pcInitiative 10 5 > npcInitiative) ∧
    (pcBucket 10 5 = 1 → pcInitiative 10 5 < npcInitiative) ∧
    (pcBucket 10 5 = pcBucket 10 15 → (5 : Int) < 15 →
      pcInitiative 10 5 > pcInitiative 10 15) ∧
    pcBucket 10 5 * 1000 - pcInitiative 10 5 = 5 ∧
    (pcBucket 10 5 = pcBucket 10 15 → (5 : Int) ≠ 15 →
      pcInitiative 10 5 ≠ pcInitiative 10 15) :=
  C4_sort_order 10 10 5 15 (by decide) (by decide) (by decide) (by decide)

end BSH

namespace BSH

/-- C5: an id with no combatant record, or whose combatant has no actor, is
silently skipped (no entry, no error) and processing continues; with one
resolvable and one unresolvable id the single batched mutation contains
exactly one entry, for the resolvable id. -/
theorem C5_skip_unresolvable (env : CombatEnv) (draws : Nat → Int)
    (id1 id2 id3 : String) (c : Combatant) (a : Actor) (c3 : Combatant)
    (ids : List String) (n : Nat)
    (h1 : env.combatants id1 = some c) (h1a : c.actor = some a)
    (h2 : env.combatants id2 = none)
    (h3 : env.combatants id3 = some c3) (h3a : c3.actor = none) :
    rollLoop env draws (id2 :: ids) n = rollLoop env draws ids n ∧
    rollLoop env draws (id3 :: ids) n = rollLoop env draws ids n ∧
    ∃ u, rollCombatantInitiatives env draws [id1, id2] = [u] ∧
      batchCalls env draws [id1, id2] = [[u]] := by
  have hskip2 : ∀ m, processCid env draws id2 m = (none, m) := fun m => by
    simp [processCid, h2]
  have hskip3 : ∀ m, processCid env draws id3 m = (none, m) := fun m => by
    simp [processCid, h3, h3a]
  have hone : ∃ u m', processCid env draws id1 0 = (some u, m') := by
    by_cases ht : a.type = "character"
    · exact ⟨⟨c.id, pcInitiative (wisFor env a) (draws 0), pcFlag (draws 0)⟩,
        1, by simp [processCid, h1, h1a, ht]⟩
    · exact ⟨⟨c.id, npcInitiative, none⟩, 0,
        by simp [processCid, h1, h1a, ht]⟩
  obtain ⟨u, m', hu⟩ := hone
  have hr : rollCombatantInitiatives env draws [id1, id2] = [u] := by
    rw [rollCombatantInitiatives, rollLoop, hu]
    show u :: rollLoop env draws [id2] m' = [u]
    rw [rollLoop, hskip2 m']
    rfl
  refine ⟨?_, ?_, u, hr, ?_⟩
  · rw [rollLoop, hskip2 n]
  · rw [rollLoop, hskip3 n]
  · simp [batchCalls, hr]

/-- Witness for C5: "a" resolves, "z" has no record, "w" has no actor; the
batch for ["a", "z"] is one mutation with one entry. -/
theorem C5_skip_unresolvable_witness :
    rollLoop envAB (drawsConst 5) ["z", "b"] 0 =
      rollLoop envAB (drawsConst 5) ["b"] 0 ∧
    rollLoop envAB (drawsConst 5) ["w", "b"] 0 =
      rollLoop envAB (drawsConst 5) ["b"] 0 ∧
    ∃ u, rollCombatantInitiatives envAB (drawsConst 5) ["a", "z"] = [u] ∧
      batchCalls envAB (drawsConst 5) ["a", "z"] = [[u]] :=
  C5_skip_unresolvable envAB (drawsConst 5) "a" "z" "w" (pcComb "a" 10)
    (pcActor 10) ⟨"w", none, none, none⟩ ["b"] 0 rfl rfl rfl rfl rfl

/-- C6: the willpower value used in the roll comparison comes from the
cached `system.calculated` record when present, otherwise from the external
attribute-derivation function, with 10 substituted when the derived wisdom
is not a number; for a non-character the raw stored wisdom is read, with 10
substituted when the block or the field is absent. -/
theorem C6_wis_resolution (env : CombatEnv) (a : Actor) (r : AttrRec)
    (x : Int) (na : NPCAttrs) :
    (a.type = "character" → a.system.calculated = some r →
      r.wisdom = JSVal.num x → wisFor env a = x) ∧
    (a.type = "character" → a.system.calculated = some r →
      r.wisdom = JSVal.nonNum → wisFor env a = 10) ∧
    (a.type = "character" → a.system.calculated = none →
      (env.calculateAttributeValues a.system).wisdom = JSVal.num x →
      wisFor env a = x) ∧
    (a.type = "character" → a.system.calculated = none →
      (env.calculateAttributeValues a.system).wisdom = JSVal.nonNum →
      wisFor env a = 10) ∧
    (a.type ≠ "character" → a.system.attributes = some na →
      na.wisdom = some x → wisFor env a = x) ∧
    (a.type ≠ "character" → a.system.attributes = some na →
      na.wisdom = none → wisFor env a = 10) ∧
    (a.type ≠ "character" → a.system.attributes = none →
      wisFor env a = 10) := by
  refine ⟨?_, ?_, ?_, ?_, ?_, ?_, ?_⟩ <;> intros <;> simp [wisFor, *]

/-- Witness for C6: a character with cached numeric wisdom 14 resolves to
14; an NPC whose stored wisdom is absent resolves to 10. -/
theorem C6_wis_resolution_witness :
    wisFor envAB (pcActor 14) = 14 ∧ wisFor envAB (npcActor none) = 10 := by
  constructor
  · exact (C6_wis_resolution envAB (pcActor 14) ⟨JSVal.num 14⟩ 14
      ⟨some 12⟩).1 rfl rfl rfl
  · exact (C6_wis_resolution envAB (npcActor none) ⟨JSVal.num 14⟩ 14
      ⟨none⟩).2.2.2.2.2.1 (by decide) rfl rfl

end BSH

namespace BSH

/-- C7: per call, at most one batched mutation is performed; it contains
exactly one entry per resolvable occurrence of an input id (a duplicated id
contributes one entry per occurrence); when no entries are emitted no
mutation call is made, otherwise the single call carries exactly the
emitted list; and every entry carries a critInit value computed afresh:
erasing all previously stored initiative / critInit values changes
nothing. -/
theorem C7_single_batch (env : CombatEnv) (draws : Nat → Int)
    (ids : List String) :
    (batchCalls env draws ids).length ≤ 1 ∧
    (rollCombatantInitiatives env draws ids).length =
      ids.countP (resolvable env) ∧
    (rollCombatantInitiatives env draws ids = [] →
      batchCalls env draws ids = []) ∧
    (rollCombatantInitiatives env draws ids ≠ [] →
      batchCalls env draws ids = [rollCombatantInitiatives env draws ids]) ∧
    rollCombatantInitiatives (clearPriorEnv env) draws ids =
      rollCombatantInitiatives env draws ids := by
  refine ⟨?_, rollLoop_length env draws ids 0, ?_, ?_,
    rollLoop_clearPriorEnv env draws ids 0⟩
  · by_cases h : (rollCombatantInitiatives env draws ids).isEmpty <;>
      simp [batchCalls, h]
  · intro h; simp [batchCalls, h]
  · intro h
    rcases hl : rollCombatantInitiatives env draws ids with _ | ⟨x, xs⟩
    · exact absurd hl h
    · simp [batchCalls, hl]

/-- Witness for C7 at the fixture store: ids ["a", "z", "a", "b"] hold
three resolvable occurrences ("a" twice, "b" once). -/
theorem C7_single_batch_witness :
    (batchCalls envAB (drawsConst 5) ["a", "z", "a", "b"]).length ≤ 1 ∧
    (rollCombatantInitiatives envAB (drawsConst 5)
        ["a", "z", "a", "b"]).length =
      List.countP (resolvable envAB) ["a", "z", "a", "b"] ∧
    (rollCombatantInitiatives envAB (drawsConst 5) ["a", "z", "a", "b"] = [] →
      batchCalls envAB (drawsConst 5) ["a", "z", "a", "b"] = []) ∧
    (rollCombatantInitiatives envAB (drawsConst 5) ["a", "z", "a", "b"] ≠ [] →
      batchCalls envAB (drawsConst 5) ["a", "z", "a", "b"] =
        [rollCombatantInitiatives envAB (drawsConst 5) ["a", "z", "a", "b"]]) ∧
    rollCombatantInitiatives (clearPriorEnv envAB) (drawsConst 5)
        ["a", "z", "a", "b"] =
      rollCombatantInitiatives envAB (drawsConst 5) ["a", "z", "a", "b"] :=
  C7_single_batch envAB (drawsConst 5) ["a", "z", "a", "b"]

/-- C8: with a fixed assignment of die draws to combatants, realised by the
consumed streams, permuting the input id sequence permutes the emitted
entries (same multiset of {id, rank, critInit}); and each combatant's entry
is a function only of its own record, its own draw, and the derivation
function, never of other combatants or its position. -/
theorem C8_order_independence (env env2 : CombatEnv)
    (assign assign2 : String → Int) (draws draws2 : Nat → Int)
    (ids ids2 : List String) (cid : String)
    (hm : streamMatches env assign draws ids 0 = true)
    (hm2 : streamMatches env assign draws2 ids2 0 = true)
    (hp : List.Perm ids2 ids)
    (hassign : assign cid = assign2 cid)
    (hcomb : env.combatants cid = env2.combatants cid)
    (hcalc : env.calculateAttributeValues = env2.calculateAttributeValues) :
    List.Perm (rollCombatantInitiatives env draws2 ids2)
      (rollCombatantInitiatives env draws ids) ∧
    entryFor env assign cid = entryFor env2 assign2 cid := by
  constructor
  · rw [rollCombatantInitiatives, rollCombatantInitiatives,
        rollLoop_eq_filterMap env assign draws ids 0 hm,
        rollLoop_eq_filterMap env assign draws2 ids2 0 hm2]
    exact hp.filterMap _
  · unfold entryFor wisFor
    rw [← hcomb, ← hassign, ← hcalc]

/-- Witness for C8: the resolver output for ["b", "a"] is a permutation of
the output for ["a", "b"] under the same assignment of draws. -/
theorem C8_order_independence_witness :
    List.Perm (rollCombatantInitiatives envAB (drawsConst 5) ["b", "a"])
      (rollCombatantInitiatives envAB (drawsConst 5) ["a", "b"]) ∧
    entryFor envAB assignAB "a" = entryFor envAB assignAB "a" :=
  C8_order_independence envAB envAB assignAB assignAB (drawsConst 5)
    (drawsConst 5) ["a", "b"] ["b", "a"] "a" (by decide) (by decide)
    (List.Perm.swap "a" "b" []) rfl rfl rfl

/-- C9: for a character combatant with a stored rank, the tracker shows
"Success" exactly when the rank exceeds 2000 and "Failure" otherwise; for a
non-character combatant the shown status text is empty whatever its rank. -/
theorem C9_display (c : Combatant) (a : Actor) (r : Int)
    (ha : c.actor = some a) :
    (a.type = "character" → c.initiative = some r →
      ((initiativeDisplay c = "Success" ↔ 2000 < r) ∧
       (initiativeDisplay c = "Failure" ↔ ¬ 2000 < r))) ∧
    (a.type ≠ "character" → initiativeDisplay c = "") := by
  constructor
  · intro ht hi
    by_cases hr : 2000 < r
    · simp [initiativeDisplay, ha, ht, hi, hr]
    · simp [initiativeDisplay, ha, ht, hi, hr]
  · intro ht
    simp [initiativeDisplay, ha, ht]

/-- Witness for C9: rank 2995 shows "Success" on a character, rank 995
shows "Failure", and the NPC shows empty text. -/
theorem C9_display_witness :
    initiativeDisplay ⟨"a", some (pcActor 10), some 2995, none⟩ = "Success" ∧
    initiativeDisplay ⟨"a", some (pcActor 10), some 995, none⟩ = "Failure" ∧
    initiativeDisplay ⟨"b", some (npcActor (some 12)), some 2000, none⟩ = "" := by
  refine ⟨?_, ?_, ?_⟩
  · exact ((C9_display ⟨"a", some (pcActor 10), some 2995, none⟩
      (pcActor 10) 2995 rfl).1 rfl rfl).1.mpr (by decide)
  · exact ((C9_display ⟨"a", some (pcActor 10), some 995, none⟩
      (pcActor 10) 995 rfl).1 rfl rfl).2.mpr (by decide)
  · exact (C9_display ⟨"b", some (npcActor (some 12)), some 2000, none⟩
      (npcActor (some 12)) 2000 rfl).2 (by decide)

/-- C10: a character combatant with no stored initiative (no roll yet) has
the missing value coerced to 0 and is shown "Failure", never blank; the
blank label can only occur for a non-character combatant. -/
theorem C10_missing_roll (c : Combatant) (a : Actor)
    (ha : c.actor = some a) (ht : a.type = "character") :
    (c.initiative = none → initiativeDisplay c = "Failure") ∧
    initiativeDisplay c ≠ "" := by
  constructor
  · intro hi; simp [initiativeDisplay, ha, ht, hi]
  · rcases hi : c.initiative with _ | v
    · simp [initiativeDisplay, ha, ht, hi]
    · by_cases hv : v > 2000 <;> simp [initiativeDisplay, ha, ht, hi, hv]

/-- Witness for C10: the character "a" with no stored initiative shows
"Failure" and not an empty label. -/
theorem C10_missing_roll_witness :
    initiativeDisplay (pcComb "a" 10) = "Failure" ∧
    initiativeDisplay (pcComb "a" 10) ≠ "" := by
  have h := C10_missing_roll (pcComb "a" 10) (pcActor 10) rfl rfl
  exact ⟨h.1 rfl, h.2⟩

end BSH
